import Mathlib

/-!
Verification of the specification of `fastapi-autocrud-rishabh` against the
repository's source files (`examples/basic_example.py`,
`examples/advanced_example.py`, `tests/conftest.py`).

The repository ships only usage sites of the `AutoCRUDRouter` generator:
the router-generation core itself is absent from the provided files, so the
CRUD handler pipeline below is modelled from the specification's contract
(section 4.1), instantiated at the `User` model and schemas declared in
`examples/basic_example.py` and `tests/conftest.py`.  The JWT helper
functions (`create_access_token`, `verify_token`) and the session provider
(`get_db`) are present in the sources and are embedded directly from them.
-/

namespace AutoCrud

/-- Errors of the failure taxonomy in spec section 7: NotFound (no row at
the given key), Forbidden (role check failed), ValidationError
(malformed or missing input). -/
inductive CrudError where
  | notFound
  | forbidden
  | validationError
deriving Repr, DecidableEq

/-- Persisted `User` row, from the SQLAlchemy model in
`examples/basic_example.py` lines 28-36: integer primary key `id`, `name`,
`email`, integer `age`, `role` with column default `"user"`, and a
`created_at` timestamp (modelled as a natural number). -/
structure UserRow where
  id : Nat
  name : String
  email : String
  age : Int
  role : String
  created_at : Nat
deriving Repr, DecidableEq

/-- Column default of `User.role` in `examples/basic_example.py` line 35:
`role = Column(String, default="user")`. -/
def userRoleColumnDefault : String := "user"

/-- Schema default of `UserCreate.role` in `examples/basic_example.py`
line 59 and `tests/conftest.py` line 34: `role: Optional[str] = "user"`. -/
def userCreateRoleDefault : String := "user"

/-- Validated `UserCreate` schema from `examples/basic_example.py`
lines 55-59 / `tests/conftest.py` lines 30-34: required `name`, `email`,
`age`; `role` is `Optional[str]` (so its validated value may be a string
or `None`). -/
structure UserCreate where
  name : String
  email : String
  age : Int
  role : Option String
deriving Repr, DecidableEq

/-- Raw (pre-validation) create payload.  Each field is `none` when absent
from the JSON body; the `role` field may also be present with an explicit
null, hence the nested option. -/
structure RawUserCreate where
  name : Option String
  email : Option String
  age : Option Int
  role : Option (Option String)
deriving Repr, DecidableEq

/-- Pydantic validation of a raw payload against `UserCreate`:
`name`, `email` and `age` are required; an absent `role` field receives
the schema default `"user"`. -/
def parseUserCreate (r : RawUserCreate) : Option UserCreate :=
  match r.name, r.email, r.age with
  | some n, some e, some a =>
      some { name := n, email := e, age := a,
             role := match r.role with
                     | none => some userCreateRoleDefault
                     | some v => v }
  | _, _, _ => none

/-- Partial-update schema `UserUpdate` from `tests/conftest.py`
lines 37-41: every field optional, `none` meaning the field is absent
from the body. -/
structure UserUpdate where
  name : Option String
  email : Option String
  age : Option Int
deriving Repr, DecidableEq

/-- Read schema `UserRead` from `examples/basic_example.py` lines 62-71:
all stored columns, constructed from a persisted row
(`from_attributes = True`). -/
structure UserRead where
  id : Nat
  name : String
  email : String
  age : Int
  role : String
  created_at : Nat
deriving Repr, DecidableEq

/-- Serialization of a persisted row through `UserRead`
(`from_attributes = True`). -/
def readOfRow (row : UserRow) : UserRead :=
  { id := row.id, name := row.name, email := row.email, age := row.age,
    role := row.role, created_at := row.created_at }

/-- The round-trip matching predicate of the spec's testable property
(section 8): a `UserRead` agrees with the originating `UserCreate`
payload on every field present in both schemas — `name`, `email`, `age`,
and `role` (the payload's `role` being `Optional[str]`). -/
def readMatchesCreate (p : UserCreate) (rd : UserRead) : Prop :=
  rd.name = p.name ∧ rd.email = p.email ∧ rd.age = p.age ∧
  some rd.role = p.role

instance (p : UserCreate) (rd : UserRead) :
    Decidable (readMatchesCreate p rd) := by
  unfold readMatchesCreate; infer_instance

/-- Database table state: rows keyed by primary key, plus the next
auto-increment key. -/
structure DB where
  rows : List (Nat × UserRow)
  nextId : Nat
deriving Repr, DecidableEq

/-- Construction of a new `User` row: a `None` role value falls back to
the model's column default `"user"` (`examples/basic_example.py` line 35). -/
def mkUserRow (id : Nat) (name email : String) (age : Int)
    (role : Option String) (now : Nat) : UserRow :=
  { id := id, name := name, email := email, age := age,
    role := role.getD userRoleColumnDefault, created_at := now }

/-- Modelled from the spec: `get(id)` of section 4.1 — "fetch by primary
key; fails with NotFound if absent".  The router core is not in the
provided sources. -/
def getUser (st : DB) (id : Nat) : Except CrudError UserRead :=
  match List.lookup id st.rows with
  | some row => .ok (readOfRow row)
  | none => .error .notFound

/-- Modelled from the spec: the persistence step of `create` in section
4.1 — "construct and persist a new row; return serialized ReadSchema".
The primary key is assigned by auto-increment; `created_at` receives the
timestamp default. -/
def createUser (st : DB) (p : UserCreate) (now : Nat) :
    Except CrudError UserRead × DB :=
  let row := mkUserRow st.nextId p.name p.email p.age p.role now
  (.ok (readOfRow row),
   { rows := (st.nextId, row) :: st.rows, nextId := st.nextId + 1 })

/-- Application of a partial update body to a row: each field present in
the body replaces the stored field, absent fields are left unchanged
(spec section 4.1, "apply partial or full field updates"). -/
def applyUserUpdate (row : UserRow) (u : UserUpdate) : UserRow :=
  { row with
    name := u.name.getD row.name,
    email := u.email.getD row.email,
    age := u.age.getD row.age }

/-- Modelled from the spec: `update(id, body)` of section 4.1 — "fetch by
primary key (NotFound if absent); apply partial or full field updates;
persist; return updated ReadSchema". -/
def updateUser (st : DB) (id : Nat) (u : UserUpdate) :
    Except CrudError UserRead × DB :=
  match List.lookup id st.rows with
  | none => (.error .notFound, st)
  | some row =>
      let row2 := applyUserUpdate row u
      (.ok (readOfRow row2),
       { st with
         rows := st.rows.map fun kv => if kv.1 = id then (id, row2) else kv })

/-- Modelled from the spec: `delete(id)` of section 4.1 — "fetch (NotFound
if absent); remove row; return confirmation". -/
def deleteUser (st : DB) (id : Nat) : Except CrudError Unit × DB :=
  match List.lookup id st.rows with
  | none => (.error .notFound, st)
  | some _ =>
      (.ok (), { st with rows := st.rows.filter fun kv => kv.1 ≠ id })

/-- Role map: mapping from operation name ("create", "update", "delete")
to the list of permitted role names, as passed to `AutoCRUDRouter` in
`examples/advanced_example.py` lines 140-144. -/
abbrev RoleMap : Type := List (String × List String)

/-- Membership of the caller's role (as returned by the role getter, which
may be absent — `get_user_role` in `examples/advanced_example.py` returns
`None` when no user is attached) in a configured set of allowed roles. -/
def roleAllowed (role : Option String) (allowed : List String) : Bool :=
  match role with
  | some r => allowed.contains r
  | none => false

/-- Modelled from the spec: the role enforcement algorithm of section 4.1
— "if role_map has no entry for the operation, it is unrestricted;
otherwise the caller's role must be a member of the configured set, else
Forbidden". -/
def checkRole (rm : RoleMap) (op : String) (role : Option String) : Bool :=
  match List.lookup op rm with
  | none => true
  | some allowed => roleAllowed role allowed

/-- Modelled from the spec: the unrestricted create pipeline — "validate
body" (validation error surfaced before any persistence attempt, section
7), then construct and persist. -/
def createOp (st : DB) (raw : RawUserCreate) (now : Nat) :
    Except CrudError UserRead × DB :=
  match parseUserCreate raw with
  | none => (.error .validationError, st)
  | some p => createUser st p now

/-- Modelled from the spec: the create handler with role enforcement — a
caller failing the role check for "create" receives Forbidden regardless
of payload validity (spec section 8). -/
def createHandler (rm : RoleMap) (role : Option String) (st : DB)
    (raw : RawUserCreate) (now : Nat) : Except CrudError UserRead × DB :=
  if checkRole rm "create" role then createOp st raw now
  else (.error .forbidden, st)

/-- Modelled from the spec: the update handler — role enforcement for
"update", then `update(id, body)`. -/
def updateHandler (rm : RoleMap) (role : Option String) (st : DB)
    (id : Nat) (u : UserUpdate) : Except CrudError UserRead × DB :=
  if checkRole rm "update" role then updateUser st id u
  else (.error .forbidden, st)

/-- Modelled from the spec: the delete handler — role enforcement for
"delete", then `delete(id)`. -/
def deleteHandler (rm : RoleMap) (role : Option String) (st : DB)
    (id : Nat) : Except CrudError Unit × DB :=
  if checkRole rm "delete" role then deleteUser st id
  else (.error .forbidden, st)

end AutoCrud

namespace AdvancedExample

/-- Configuration constant `SECRET_KEY` from
`examples/advanced_example.py` line 20. -/
def SECRET_KEY : String := "your-secret-key-here"

/-- Configuration constant `ALGORITHM` from
`examples/advanced_example.py` line 21. -/
def ALGORITHM : String := "HS256"

/-- The HTTP status constant `status.HTTP_401_UNAUTHORIZED`. -/
def HTTP_401_UNAUTHORIZED : Nat := 401

/-- An `HTTPException` as raised in `verify_token`: a status code and a
detail string. -/
structure HTTPException where
  status_code : Nat
  detail : String
deriving Repr, DecidableEq

/-- Payload of the JWT built by `create_access_token`
(`examples/advanced_example.py` lines 84-88): `username`, `role`, and
`exp` (an absolute expiry timestamp in seconds, modelled as `Nat`). -/
structure JwtPayload where
  username : String
  role : String
  exp : Nat
deriving Repr, DecidableEq

/-- Abstract JWT as seen by the PyJWT interface: the carried payload, the
key and algorithm it was signed with, and a flag recording whether its
signature and structure are intact.  `wellFormed := false` models a token
that is malformed or whose signature does not verify. -/
structure Token where
  payload : JwtPayload
  key : String
  alg : String
  wellFormed : Bool
deriving Repr, DecidableEq

/-- Error outcomes of `jwt.decode` distinguished by `verify_token`:
`jwt.ExpiredSignatureError` (a subclass of `jwt.InvalidTokenError`,
matched first) and any other `jwt.InvalidTokenError`. -/
inductive JwtError where
  | expiredSignature
  | invalidToken
deriving Repr, DecidableEq

/-- The PyJWT `jwt.encode(payload, key, algorithm)` interface: produces a
well-formed token signed with the given key and algorithm. -/
def jwtEncode (payload : JwtPayload) (key alg : String) : Token :=
  { payload := payload, key := key, alg := alg, wellFormed := true }

/-- The PyJWT `jwt.decode(token, key, algorithms=[alg])` interface: a
token that is malformed or not signed with the expected key and algorithm
raises `InvalidTokenError`; a verified token whose `exp` claim lies in
the past raises `ExpiredSignatureError`; otherwise the payload is
returned. -/
def jwtDecode (tok : Token) (key alg : String) (now : Nat) :
    Except JwtError JwtPayload :=
  if tok.wellFormed && tok.key == key && tok.alg == alg then
    if tok.payload.exp < now then .error .expiredSignature
    else .ok tok.payload
  else .error .invalidToken

/-- `TokenData` from `examples/advanced_example.py` lines 67-69:
authenticated principal carrying username and role. -/
structure TokenData where
  username : String
  role : String
deriving Repr, DecidableEq

/-- `create_access_token` from `examples/advanced_example.py` lines
82-89: encodes `{username, role, exp: utcnow + 3600}` with `SECRET_KEY`
and `ALGORITHM`.  `now` is the current timestamp
(`datetime.utcnow().timestamp()`). -/
def create_access_token (username : String) (role : String) (now : Nat) :
    Token :=
  jwtEncode { username := username, role := role, exp := now + 3600 }
    SECRET_KEY ALGORITHM

/-- `verify_token` from `examples/advanced_example.py` lines 92-107:
decodes the presented token with `SECRET_KEY` and `ALGORITHM`, returning
`TokenData(**payload)` on success; an `ExpiredSignatureError` becomes HTTP
401 "Token has expired", any other `InvalidTokenError` becomes HTTP 401
"Invalid token". -/
def verify_token (tok : Token) (now : Nat) :
    Except HTTPException TokenData :=
  match jwtDecode tok SECRET_KEY ALGORITHM now with
  | .ok p => .ok { username := p.username, role := p.role }
  | .error .expiredSignature =>
      .error { status_code := HTTP_401_UNAUTHORIZED,
               detail := "Token has expired" }
  | .error .invalidToken =>
      .error { status_code := HTTP_401_UNAUTHORIZED,
               detail := "Invalid token" }

/-- Bookkeeping of session acquisition and release: how many sessions the
factory `SessionLocal` has handed out and how many have been closed.
Fresh session identifiers are assigned in acquisition order. -/
structure SessionState where
  acquired : Nat
  released : Nat
deriving Repr, DecidableEq

/-- Lifecycle events of a database session. -/
inductive SessionEvent where
  | acquire (sid : Nat)
  | release (sid : Nat)
deriving Repr, DecidableEq

/-- `get_db` from `examples/basic_example.py` lines 94-99 and
`examples/advanced_example.py` lines 73-78:
`db = SessionLocal()` acquires a session, `yield db` hands it to the
request's unit of work (which may raise, modelled by `work` returning
`Except`), and the `finally` block runs `db.close()` on every path before
the outcome propagates.  The result records the work's outcome, the final
session bookkeeping, and the ordered trace of lifecycle events. -/
def get_db (work : Nat → Except ε α) (s : SessionState) :
    Except ε α × SessionState × List SessionEvent :=
  let sid := s.acquired
  let s1 : SessionState := { s with acquired := s.acquired + 1 }
  let res := work sid
  let s2 : SessionState := { s1 with released := s1.released + 1 }
  (res, s2, [.acquire sid, .release sid])

end AdvancedExample

namespace AutoCrud

/-- Looking up a key in a list from which all entries with that key were
filtered out yields nothing. -/
theorem lookup_filter_ne_self (id : Nat) (l : List (Nat × UserRow)) :
    List.lookup id (l.filter fun kv => kv.1 ≠ id) = none := by
  induction l with
  | nil => rfl
  | cons hd tl ih =>
    by_cases h : hd.1 = id
    · simpa [List.filter_cons, h] using ih
    · simp [List.filter_cons, h, List.lookup_cons,
        beq_false_of_ne (Ne.symm h), ih]
      exact ⟨Ne.symm h, fun a b _ ha => Ne.symm ha⟩

/-- Replacing every entry with the given key by a fixed entry makes lookup
of that key return the replacement, provided the key occurs. -/
theorem lookup_map_replace (id : Nat) (row2 : UserRow)
    (l : List (Nat × UserRow)) (row : UserRow)
    (h : List.lookup id l = some row) :
    List.lookup id
      (l.map fun kv => if kv.1 = id then (id, row2) else kv) = some row2 := by
  induction l with
  | nil => simp at h
  | cons hd tl ih =>
    obtain ⟨k, v⟩ := hd
    by_cases hk : k = id
    · subst hk
      simp [List.map_cons, List.lookup_cons]
    · rw [List.lookup_cons, beq_false_of_ne (Ne.symm hk)] at h
      simp [List.map_cons, hk, List.lookup_cons,
        beq_false_of_ne (Ne.symm hk)]
      exact ih h

end AutoCrud

namespace AutoCrud

/-- C1: for every CRUD operation of a generated router, if the configured
role map has no entry for the operation, the handler is the bare
operation (unrestricted by role); if it has an entry, the handler equals
the bare operation exactly when the role returned by the role getter is a
member of the configured set, and otherwise returns Forbidden with the
state unchanged, regardless of payload validity (the equations hold for
every raw payload). -/
theorem role_map_enforcement (rm : RoleMap) (role : Option String)
    (st : DB) (raw : RawUserCreate) (now id : Nat) (u : UserUpdate) :
    (List.lookup "create" rm = none →
       createHandler rm role st raw now = createOp st raw now) ∧
    (∀ allowed, List.lookup "create" rm = some allowed →
       (roleAllowed role allowed = true →
          createHandler rm role st raw now = createOp st raw now) ∧
       (roleAllowed role allowed = false →
          createHandler rm role st raw now = (.error .forbidden, st))) ∧
    (List.lookup "update" rm = none →
       updateHandler rm role st id u = updateUser st id u) ∧
    (∀ allowed, List.lookup "update" rm = some allowed →
       (roleAllowed role allowed = true →
          updateHandler rm role st id u = updateUser st id u) ∧
       (roleAllowed role allowed = false →
          updateHandler rm role st id u = (.error .forbidden, st))) ∧
    (List.lookup "delete" rm = none →
       deleteHandler rm role st id = deleteUser st id) ∧
    (∀ allowed, List.lookup "delete" rm = some allowed →
       (roleAllowed role allowed = true →
          deleteHandler rm role st id = deleteUser st id) ∧
       (roleAllowed role allowed = false →
          deleteHandler rm role st id = (.error .forbidden, st))) ∧
    (∀ allowed : List String, roleAllowed role allowed = true ↔
       ∃ r, role = some r ∧ allowed.contains r = true) := by
  refine ⟨?_, ?_, ?_, ?_, ?_, ?_, ?_⟩
  · intro h; simp [createHandler, checkRole, h]
  · intro allowed h
    exact ⟨fun hr => by simp [createHandler, checkRole, h, hr],
           fun hr => by simp [createHandler, checkRole, h, hr]⟩
  · intro h; simp [updateHandler, checkRole, h]
  · intro allowed h
    exact ⟨fun hr => by simp [updateHandler, checkRole, h, hr],
           fun hr => by simp [updateHandler, checkRole, h, hr]⟩
  · intro h; simp [deleteHandler, checkRole, h]
  · intro allowed h
    exact ⟨fun hr => by simp [deleteHandler, checkRole, h, hr],
           fun hr => by simp [deleteHandler, checkRole, h, hr]⟩
  · intro allowed; cases role <;> simp [roleAllowed]

/-- Witness for C1 at the role map of `examples/advanced_example.py`
(delete restricted to admins): a caller with role "user" attempting a
delete receives Forbidden and the state is unchanged. -/
theorem role_map_enforcement_witness :
    deleteHandler
        [("delete", ["admin"]), ("update", ["admin", "staff"]),
         ("create", ["admin"])]
        (some "user")
        { rows := [(1, { id := 1, name := "Alice",
                         email := "alice@example.com", age := 25,
                         role := "admin", created_at := 0 })],
          nextId := 2 } 1
      = (.error .forbidden,
         { rows := [(1, { id := 1, name := "Alice",
                          email := "alice@example.com", age := 25,
                          role := "admin", created_at := 0 })],
           nextId := 2 }) :=
  ((role_map_enforcement
      [("delete", ["admin"]), ("update", ["admin", "staff"]),
       ("create", ["admin"])]
      (some "user")
      { rows := [(1, { id := 1, name := "Alice",
                       email := "alice@example.com", age := 25,
                       role := "admin", created_at := 0 })],
        nextId := 2 }
      { name := none, email := none, age := none, role := none }
      0 1 { name := none, email := none, age := none
      }).2.2.2.2.2.1 ["admin"] (by decide)).2 (by decide)

end AutoCrud

namespace AutoCrud

/-- C2 (counterexample): the `UserCreate` schema types `role` as
`Optional[str]`, so a payload carrying an explicit null role is valid;
creating with it and reading the row back yields `role = "user"` (the
column default), which does not equal the payload's null role, so the
round-trip does not agree on every field present in both schemas. -/
theorem create_roundtrip_counterexample :
    createUser { rows := [], nextId := 0 }
        { name := "Alice", email := "alice@example.com", age := 25,
          role := none } 0
      = (.ok { id := 0, name := "Alice", email := "alice@example.com",
               age := 25, role := "user", created_at := 0 },
         { rows := [(0, { id := 0, name := "Alice",
                          email := "alice@example.com", age := 25,
                          role := "user", created_at := 0 })],
           nextId := 1 }) ∧
    getUser { rows := [(0, { id := 0, name := "Alice",
                             email := "alice@example.com", age := 25,
                             role := "user", created_at := 0 })],
              nextId := 1 } 0
      = .ok { id := 0, name := "Alice", email := "alice@example.com",
              age := 25, role := "user", created_at := 0 } ∧
    ¬ readMatchesCreate
        { name := "Alice", email := "alice@example.com", age := 25,
          role := none }
        { id := 0, name := "Alice", email := "alice@example.com",
          age := 25, role := "user", created_at := 0 } :=
  ⟨rfl, rfl, by decide⟩

/-- C2 (amended): for every valid `UserCreate` payload whose `role` is
not an explicit null, `create` followed by `get` on the assigned primary
key returns a `UserRead` that agrees with the payload on every field
present in both schemas (`name`, `email`, `age`, `role`). -/
theorem create_then_get_roundtrip (st : DB) (p : UserCreate) (now : Nat)
    (h : p.role ≠ none) :
    ∃ rd st2, createUser st p now = (.ok rd, st2) ∧
      getUser st2 rd.id = .ok rd ∧ readMatchesCreate p rd := by
  obtain ⟨r, hr⟩ := Option.ne_none_iff_exists'.mp h
  refine ⟨_, _, rfl, ?_, ?_⟩
  · simp [createUser, getUser, List.lookup_cons, readOfRow, mkUserRow]
  · simp [createUser, readMatchesCreate, readOfRow, mkUserRow, hr]

/-- Witness for C2 (amended) at a concrete payload with role "admin". -/
theorem create_then_get_roundtrip_witness :
    ∃ rd st2,
      createUser { rows := [], nextId := 0 }
          { name := "Alice", email := "alice@example.com", age := 25,
            role := some "admin" } 5
        = (.ok rd, st2) ∧
      getUser st2 rd.id = .ok rd ∧
      readMatchesCreate
        { name := "Alice", email := "alice@example.com", age := 25,
          role := some "admin" } rd :=
  create_then_get_roundtrip { rows := [], nextId := 0 }
    { name := "Alice", email := "alice@example.com", age := 25,
      role := some "admin" } 5 (by decide)

/-- C3: a successful `delete(id)` followed by `get(id)` yields NotFound. -/
theorem delete_then_get_notFound (st : DB) (id : Nat) (st2 : DB)
    (h : deleteUser st id = (.ok (), st2)) :
    getUser st2 id = .error .notFound := by
  cases hl : List.lookup id st.rows with
  | none => simp [deleteUser, hl] at h
  | some row =>
    simp only [deleteUser, hl, Prod.mk.injEq, true_and] at h
    subst h
    have h2 := lookup_filter_ne_self id st.rows
    simp only [decide_not] at h2
    simp [getUser, h2]

/-- Witness for C3: deleting the only row and then fetching it returns
NotFound. -/
theorem delete_then_get_notFound_witness :
    deleteUser
        { rows := [(1, { id := 1, name := "Bob",
                         email := "bob@example.com", age := 30,
                         role := "user", created_at := 0 })],
          nextId := 2 } 1
      = (.ok (), { rows := [], nextId := 2 }) ∧
    getUser { rows := [], nextId := 2 } 1 = .error .notFound :=
  ⟨rfl,
   delete_then_get_notFound
     { rows := [(1, { id := 1, name := "Bob", email := "bob@example.com",
                      age := 30, role := "user", created_at := 0 })],
       nextId := 2 } 1 { rows := [], nextId := 2 } rfl⟩

/-- C4: at a primary key with no stored row, `get`, `update` and `delete`
all fail with NotFound and leave the state unchanged. -/
theorem missing_row_notFound (st : DB) (id : Nat) (u : UserUpdate)
    (h : List.lookup id st.rows = none) :
    getUser st id = .error .notFound ∧
    updateUser st id u = (.error .notFound, st) ∧
    deleteUser st id = (.error .notFound, st) := by
  simp [getUser, updateUser, deleteUser, h]

/-- Witness for C4 on the empty table at key 7. -/
theorem missing_row_notFound_witness :
    List.lookup 7 ({ rows := [], nextId := 0 } : DB).rows = none ∧
    (getUser { rows := [], nextId := 0 } 7 = .error .notFound ∧
     updateUser { rows := [], nextId := 0 } 7
         { name := none, email := none, age := none }
       = (.error .notFound, { rows := [], nextId := 0 }) ∧
     deleteUser { rows := [], nextId := 0 } 7
       = (.error .notFound, { rows := [], nextId := 0 })) :=
  ⟨rfl, missing_row_notFound { rows := [], nextId := 0 } 7
     { name := none, email := none, age := none } rfl⟩

end AutoCrud

namespace AutoCrud

/-- C5: updating an existing row with a partial body leaves every field
absent from the body unchanged on the stored row, and the fields outside
the update schema (`role`, `created_at`, and the primary key) are always
preserved. -/
theorem update_preserves_unset_fields (st : DB) (id : Nat)
    (u : UserUpdate) (row : UserRow)
    (h : List.lookup id st.rows = some row) :
    ∃ st2, updateUser st id u
        = (.ok (readOfRow (applyUserUpdate row u)), st2) ∧
      List.lookup id st2.rows = some (applyUserUpdate row u) ∧
      (u.name = none → (applyUserUpdate row u).name = row.name) ∧
      (u.email = none → (applyUserUpdate row u).email = row.email) ∧
      (u.age = none → (applyUserUpdate row u).age = row.age) ∧
      (applyUserUpdate row u).role = row.role ∧
      (applyUserUpdate row u).created_at = row.created_at ∧
      (applyUserUpdate row u).id = row.id := by
  refine ⟨{ st with rows := st.rows.map (fun kv => if kv.1 = id then (id, applyUserUpdate row u) else kv) },
    by simp [updateUser, h],
    lookup_map_replace id _ st.rows row h,
    fun hn => by simp [applyUserUpdate, hn],
    fun he => by simp [applyUserUpdate, he],
    fun ha => by simp [applyUserUpdate, ha], rfl, rfl, rfl⟩

/-- Witness for C5: a partial body carrying only a new name keeps the
stored email, age, role and creation time. -/
theorem update_preserves_unset_fields_witness :
    List.lookup 1
        ({ rows := [(1, { id := 1, name := "Bob",
                          email := "bob@example.com", age := 30,
                          role := "user", created_at := 9 })],
           nextId := 2 } : DB).rows
      = some { id := 1, name := "Bob", email := "bob@example.com",
               age := 30, role := "user", created_at := 9 } ∧
    ∃ st2, updateUser
        { rows := [(1, { id := 1, name := "Bob",
                         email := "bob@example.com", age := 30,
                         role := "user", created_at := 9 })],
          nextId := 2 } 1
        { name := some "Robert", email := none, age := none }
        = (.ok (readOfRow (applyUserUpdate
             { id := 1, name := "Bob", email := "bob@example.com",
               age := 30, role := "user", created_at := 9 }
             { name := some "Robert", email := none, age := none })),
           st2) ∧
      List.lookup 1 st2.rows
        = some (applyUserUpdate
            { id := 1, name := "Bob", email := "bob@example.com",
              age := 30, role := "user", created_at := 9 }
            { name := some "Robert", email := none, age := none }) ∧
      (({ name := some "Robert", email := none, age := none }
          : UserUpdate).name = none →
        (applyUserUpdate
          { id := 1, name := "Bob", email := "bob@example.com",
            age := 30, role := "user", created_at := 9 }
          { name := some "Robert", email := none, age := none }).name
          = "Bob") ∧
      (({ name := some "Robert", email := none, age := none }
          : UserUpdate).email = none →
        (applyUserUpdate
          { id := 1, name := "Bob", email := "bob@example.com",
            age := 30, role := "user", created_at := 9 }
          { name := some "Robert", email := none, age := none }).email
          = "bob@example.com") ∧
      (({ name := some "Robert", email := none, age := none }
          : UserUpdate).age = none →
        (applyUserUpdate
          { id := 1, name := "Bob", email := "bob@example.com",
            age := 30, role := "user", created_at := 9 }
          { name := some "Robert", email := none, age := none }).age
          = 30) ∧
      (applyUserUpdate
          { id := 1, name := "Bob", email := "bob@example.com",
            age := 30, role := "user", created_at := 9 }
          { name := some "Robert", email := none, age := none }).role
        = "user" ∧
      (applyUserUpdate
          { id := 1, name := "Bob", email := "bob@example.com",
            age := 30, role := "user", created_at := 9 }
          { name := some "Robert", email := none, age := none }).created_at
        = 9 ∧
      (applyUserUpdate
          { id := 1, name := "Bob", email := "bob@example.com",
            age := 30, role := "user", created_at := 9 }
          { name := some "Robert", email := none, age := none }).id
        = 1 :=
  ⟨rfl, update_preserves_unset_fields
     { rows := [(1, { id := 1, name := "Bob", email := "bob@example.com",
                      age := 30, role := "user", created_at := 9 })],
       nextId := 2 } 1
     { name := some "Robert", email := none, age := none }
     { id := 1, name := "Bob", email := "bob@example.com", age := 30,
       role := "user", created_at := 9 } rfl⟩

/-- C10: an absent `role` field in the create payload yields a stored
role of `"user"`: the `UserCreate` schema default is `"user"`, the model
column default is `"user"`, validation fills the absent field with the
schema default, a `None` role value falls back to the column default in
row construction, and the end-to-end create pipeline persists and returns
role `"user"`. -/
theorem absent_role_gets_user_default (st : DB) (n e : String) (a : Int)
    (now : Nat) :
    userCreateRoleDefault = "user" ∧
    userRoleColumnDefault = "user" ∧
    parseUserCreate { name := some n, email := some e, age := some a,
                      role := none }
      = some { name := n, email := e, age := a, role := some "user" } ∧
    (mkUserRow 0 n e a none now).role = "user" ∧
    ∃ rd st2,
      createOp st { name := some n, email := some e, age := some a,
                    role := none } now = (.ok rd, st2) ∧
      rd.role = "user" ∧
      List.lookup st.nextId st2.rows
        = some (mkUserRow st.nextId n e a (some "user") now) := by
  refine ⟨rfl, rfl, rfl, rfl,
    readOfRow (mkUserRow st.nextId n e a (some "user") now), _, rfl, rfl,
    ?_⟩
  simp [createOp, parseUserCreate, createUser, List.lookup_cons,
    userCreateRoleDefault]

end AutoCrud

namespace AdvancedExample

/-- C6: `verify_token` yields HTTP 401 "Token has expired" on a validly
signed token whose expiry has passed, HTTP 401 "Invalid token" on a
token that is malformed or not signed with the configured key and
algorithm, and `TokenData` with the payload's username and role on a
validly signed unexpired token; these three equations cover the three
input classes exhaustively. -/
theorem verify_token_outcomes (tok : Token) (now : Nat) :
    (tok.wellFormed = true → tok.key = SECRET_KEY →
       tok.alg = ALGORITHM → tok.payload.exp < now →
       verify_token tok now
         = .error { status_code := HTTP_401_UNAUTHORIZED,
                    detail := "Token has expired" }) ∧
    ((tok.wellFormed = false ∨ tok.key ≠ SECRET_KEY ∨
        tok.alg ≠ ALGORITHM) →
       verify_token tok now
         = .error { status_code := HTTP_401_UNAUTHORIZED,
                    detail := "Invalid token" }) ∧
    (tok.wellFormed = true → tok.key = SECRET_KEY →
       tok.alg = ALGORITHM → now ≤ tok.payload.exp →
       verify_token tok now
         = .ok { username := tok.payload.username,
                 role := tok.payload.role }) := by
  obtain ⟨⟨u, r, exp⟩, key, alg, wf⟩ := tok
  refine ⟨?_, ?_, ?_⟩
  · rintro rfl rfl rfl hexp
    simp [verify_token, jwtDecode, hexp]
  · rintro (h | h | h)
    · simp only at h
      simp [verify_token, jwtDecode, h]
    · simp [verify_token, jwtDecode, beq_false_of_ne h]
    · simp [verify_token, jwtDecode, beq_false_of_ne h]
  · rintro rfl rfl rfl hexp
    simp [verify_token, jwtDecode, Nat.not_lt.mpr hexp]

/-- Witness for C6 on three concrete tokens: an expired one, one signed
with a wrong key, and a fresh valid one. -/
theorem verify_token_outcomes_witness :
    verify_token
        { payload := { username := "alice", role := "admin", exp := 10 },
          key := SECRET_KEY, alg := ALGORITHM, wellFormed := true } 20
      = .error { status_code := HTTP_401_UNAUTHORIZED,
                 detail := "Token has expired" } ∧
    verify_token
        { payload := { username := "alice", role := "admin", exp := 10 },
          key := "other-key", alg := ALGORITHM, wellFormed := true } 5
      = .error { status_code := HTTP_401_UNAUTHORIZED,
                 detail := "Invalid token" } ∧
    verify_token
        { payload := { username := "alice", role := "admin", exp := 10 },
          key := SECRET_KEY, alg := ALGORITHM, wellFormed := true } 5
      = .ok { username := "alice", role := "admin" } :=
  ⟨(verify_token_outcomes
      { payload := { username := "alice", role := "admin", exp := 10 },
        key := SECRET_KEY, alg := ALGORITHM, wellFormed := true } 20).1
      rfl rfl rfl (by decide),
   (verify_token_outcomes
      { payload := { username := "alice", role := "admin", exp := 10 },
        key := "other-key", alg := ALGORITHM, wellFormed := true } 5).2.1
      (Or.inr (Or.inl (by decide))),
   (verify_token_outcomes
      { payload := { username := "alice", role := "admin", exp := 10 },
        key := SECRET_KEY, alg := ALGORITHM, wellFormed := true } 5).2.2
      rfl rfl rfl (by decide)⟩

/-- C7: verifying a token freshly issued by `create_access_token` for a
username and role, before its expiry and against the same secret key and
algorithm, returns a `TokenData` with exactly that username and role. -/
theorem create_verify_roundtrip (u r : String) (now now2 : Nat)
    (h : now2 ≤ now + 3600) :
    verify_token (create_access_token u r now) now2
      = .ok { username := u, role := r } := by
  simp [verify_token, create_access_token, jwtEncode, jwtDecode,
    Nat.not_lt.mpr h]

/-- Witness for C7: a token issued at time 0 verifies at time 1800. -/
theorem create_verify_roundtrip_witness :
    1800 ≤ 0 + 3600 ∧
    verify_token (create_access_token "alice" "admin" 0) 1800
      = .ok { username := "alice", role := "admin" } :=
  ⟨by decide, create_verify_roundtrip "alice" "admin" 0 1800 (by decide)⟩

/-- C8 (counterexample): `create_access_token` accepts only a username
and a role — no lifetime argument — and every token it issues at time 0
expires at 3600 regardless of the caller-supplied arguments: the
lifetime is fixed at one hour, not chosen by the caller. -/
theorem fixed_expiry_counterexample :
    (create_access_token "alice" "admin" 0).payload.exp = 3600 ∧
    (create_access_token "bob" "user" 0).payload.exp = 3600 ∧
    (create_access_token "carol" "staff" 1000).payload.exp = 4600 :=
  ⟨rfl, rfl, rfl⟩

/-- C8 (amended): `create_access_token` issues signed tokens whose
expiry is fixed at 3600 seconds (one hour) after issuance; the token
lifetime is hard-coded and not configurable by the caller. -/
theorem fixed_expiry (u r : String) (now : Nat) :
    (create_access_token u r now).payload.exp = now + 3600 ∧
    (create_access_token u r now).key = SECRET_KEY ∧
    (create_access_token u r now).alg = ALGORITHM ∧
    (create_access_token u r now).wellFormed = true :=
  ⟨rfl, rfl, rfl, rfl⟩

/-- C9: for every unit of work (whether it returns a value or raises),
`get_db` acquires exactly one session, yields that session to the work,
releases it afterwards, and propagates the work's outcome unchanged. -/
theorem get_db_scoped_session {ε α : Type} (work : Nat → Except ε α)
    (s : SessionState) :
    (get_db work s).2.1.acquired = s.acquired + 1 ∧
    (get_db work s).2.1.released = s.released + 1 ∧
    (get_db work s).2.2
      = [SessionEvent.acquire s.acquired,
         SessionEvent.release s.acquired] ∧
    (get_db work s).1 = work s.acquired :=
  ⟨rfl, rfl, rfl, rfl⟩

end AdvancedExample
